import Mathlib

/-!
Verification of `zod/anno/parser.py` (annotation parsers of the ZOD dataset
tooling) against its natural-language specification.

The module is embedded shallowly:

* JSON documents (the values produced by Python's `json.load`) are the
  inductive type `Json`; numbers are rationals, which represent every JSON
  numeric literal exactly.
* The observable state of a filesystem path is `FileContent`: the path is
  missing, holds text that is not valid JSON, or holds text that decodes to
  a JSON value.  `open` + `json.load` is the function `_read_annotation_file`
  over this type.
* Failures (Python exceptions) are the `PyError` type, and fallible code
  returns `Except PyError`.
* Python dictionary indexing, the `in` operator, truthiness and `==` are
  given by `pyGet`, `pyContainsKey` / `pyListIn`, `pyTruthy` and `pyEq`.
* The external collaborators that live outside the analysed source —
  `ObjectAnnotation.from_dict`, `get_class_idx`, `Box2D.from_points` — are
  parameters of the parsers, so every theorem holds for every behaviour of
  those collaborators.
-/

namespace Zod

/-- A JSON value as produced by Python's `json.load`: `null`, booleans,
numbers (JSON numerals are decimal, hence exactly representable as
rationals), strings, arrays and objects.  Objects are association lists of
distinct keys in insertion order, which is what `json.load` yields. -/
inductive Json where
  | null
  | bool (b : Bool)
  | num (q : Rat)
  | str (s : String)
  | arr (elems : List Json)
  | obj (fields : List (String × Json))

/-- Python exceptions that the parsing layer can surface: `FileNotFoundError`
(`fileNotFound`), `json.JSONDecodeError` (`malformedInput`), `KeyError`,
`TypeError`, and the external lookup's unknown-class failure. -/
inductive PyError where
  | fileNotFound
  | malformedInput
  | keyError (k : String)
  | typeError
  | unknownClass
deriving DecidableEq

/-- The observable content of a filesystem path: the path does not resolve,
it holds bytes that are not valid JSON, or it holds valid JSON decoding to
the value `j`. -/
inductive FileContent where
  | missing
  | invalid
  | valid (j : Json)

/-- First match in an association list — Python dictionaries from
`json.load` have distinct keys, so this is dictionary lookup. -/
def pyLookup (k : String) : List (String × Json) → Option Json
  | [] => none
  | (k2, v) :: rest => if k2 = k then some v else pyLookup k rest

/-- Python subscripting `j[k]` with a string key: dictionary lookup, raising
`KeyError` when the key is absent and `TypeError` when `j` is not a
dictionary (string/list/number subscripts with a string key raise
`TypeError` in Python). -/
def pyGet (j : Json) (k : String) : Except PyError Json :=
  match j with
  | Json.obj fields =>
    match pyLookup k fields with
    | some v => Except.ok v
    | none => Except.error (PyError.keyError k)
  | _ => Except.error PyError.typeError

/-- Python truthiness of a JSON value: `None`, `False`, zero, the empty
string and empty containers are falsy; everything else is truthy. -/
def pyTruthy : Json → Bool
  | Json.null => false
  | Json.bool b => b
  | Json.num q => q != 0
  | Json.str s => s != ""
  | Json.arr elems => !elems.isEmpty
  | Json.obj fields => !fields.isEmpty

/-- Python iteration `for x in j`: lists yield their elements, dictionaries
their keys in insertion order, strings their one-character substrings;
numbers, booleans and `None` are not iterable (`TypeError`). -/
def pyIter : Json → Except PyError (List Json)
  | Json.arr elems => Except.ok elems
  | Json.obj fields => Except.ok (fields.map (fun f => Json.str f.1))
  | Json.str s => Except.ok (s.data.map (fun c => Json.str (String.mk [c])))
  | _ => Except.error PyError.typeError

mutual

/-- Python `==` on JSON values: `True == 1` and `False == 0` (bool is an int
subtype), numbers compare numerically, strings compare by content, lists
elementwise, dictionaries by key set with `==` on the values; values of
unrelated kinds are unequal. -/
def pyEq : Json → Json → Bool
  | Json.null, Json.null => true
  | Json.bool a, Json.bool b => a == b
  | Json.bool a, Json.num q => (if a then (1 : Rat) else 0) == q
  | Json.num q, Json.bool b => q == (if b then (1 : Rat) else 0)
  | Json.num a, Json.num b => a == b
  | Json.str a, Json.str b => a == b
  | Json.arr a, Json.arr b => pyEqList a b
  | Json.obj a, Json.obj b => a.length == b.length && pyFieldsLe a b
  | _, _ => false
termination_by a b => sizeOf a + sizeOf b

/-- Elementwise Python `==` on lists. -/
def pyEqList : List Json → List Json → Bool
  | [], [] => true
  | x :: xs, y :: ys => pyEq x y && pyEqList xs ys
  | _, _ => false
termination_by a b => sizeOf a + sizeOf b

/-- Every field of the first dictionary occurs in the second with a
`pyEq`-equal value; with distinct keys and equal sizes this is Python's
order-insensitive dictionary equality. -/
def pyFieldsLe : List (String × Json) → List (String × Json) → Bool
  | [], _ => true
  | (k, v) :: rest, b => pyFieldMem k v b && pyFieldsLe rest b
termination_by a b => sizeOf a + sizeOf b

/-- The key/value pair occurs in the dictionary, the value up to `pyEq`. -/
def pyFieldMem (k : String) (v : Json) : List (String × Json) → Bool
  | [] => false
  | (k2, v2) :: rest => (k == k2 && pyEq v v2) || pyFieldMem k v rest
termination_by l => sizeOf v + sizeOf l

end

/-- Python `k in j` for a string `k`: key membership for dictionaries,
element membership (via `==`) for lists, substring test for strings,
`TypeError` otherwise. -/
def pyContainsKey (j : Json) (k : String) : Except PyError Bool :=
  match j with
  | Json.obj fields => Except.ok (fields.any (fun f => f.1 == k))
  | Json.arr elems => Except.ok (elems.any (fun e => pyEq (Json.str k) e))
  | Json.str s => Except.ok (k == "" || (s.splitOn k).length != 1)
  | _ => Except.error PyError.typeError

/-- Python `x in xs` for a list `xs`: membership via `==`. -/
def pyListIn (x : Json) (xs : List Json) : Bool :=
  xs.any (fun e => pyEq x e)

/-- Modelled from the spec: the camera identifiers of `zod.constants` (that
module is not part of the analysed source); the parsers only ever use the
front camera. -/
inductive Camera where
  | FRONT
deriving DecidableEq

/-- Modelled from the spec: the external traffic-sign dataclass of
`zod.anno.tsr.traffic_sign` (outside the analysed source), with the exact
field set the spec lists.  The bounding-box type `B` is owned by the
external geometry collaborator and is kept abstract; all other fields are
stored exactly as the parser passes them. -/
structure TrafficSignAnnotation (B : Type) where
  bounding_box : B
  traffic_sign_class : Json
  traffic_sign_idx : Int
  occlusion_ratio : Json
  annotation_uuid : Json
  electronic_sign : Json
  uuid : Json

/-- `_read_annotation_file`: `open(path)` raises `FileNotFoundError` when
the path does not resolve, `json.load` raises `JSONDecodeError` on content
that is not valid JSON, and otherwise the decoded top-level JSON value is
returned as-is — the source performs no check that it is an array. -/
def _read_annotation_file : FileContent → Except PyError Json
  | FileContent.missing => Except.error PyError.fileNotFound
  | FileContent.invalid => Except.error PyError.malformedInput
  | FileContent.valid j => Except.ok j

/-- A Python list comprehension `[f x for x in xs]`: left-to-right, the
first exception aborts the whole comprehension. -/
def pyListComp {A : Type} (f : Json → Except PyError A) :
    List Json → Except PyError (List A)
  | [] => Except.ok []
  | x :: xs => do
    let y ← f x
    let ys ← pyListComp f xs
    Except.ok (y :: ys)

/-- `parse_object_detection_annotation`: read the file and apply
`ObjectAnnotation.from_dict` (the external constructor, here the parameter
`from_dict`) to every record, in order, with no filtering. -/
def parse_object_detection_annotation {A : Type}
    (from_dict : Json → Except PyError A)
    (annotation_path : FileContent) : Except PyError (List A) := do
  let ann ← _read_annotation_file annotation_path
  let objs ← pyIter ann
  pyListComp from_dict objs

/-- The `for annotated_object in annotation` loop of
`parse_traffic_sign_annotation`, with the external collaborators as
parameters: `get_class_idx` (class-label-to-index lookup) and `from_points`
(`Box2D.from_points`).  A record whose `properties["unclear"]` is truthy is
skipped by `continue`; otherwise the fields are read in the source's
evaluation order and a `TrafficSignAnnotation` is appended. -/
def parseTrafficSignLoop {B : Type} (get_class_idx : Json → Except PyError Int)
    (from_points : Json → Camera → Except PyError B) :
    List Json → Except PyError (List ( TrafficSignAnnotation B))
  | [] => Except.ok []
  | annotated_object :: rest => do
    let props ← pyGet annotated_object "properties"
    let unclear ← pyGet props "unclear"
    if pyTruthy unclear then
      parseTrafficSignLoop get_class_idx from_points rest
    else
      let geom ← pyGet annotated_object "geometry"
      let coords ← pyGet geom "coordinates"
      let bounding_box ← from_points coords Camera.FRONT
      let cls ← pyGet props "class"
      let idx ← get_class_idx cls
      let occ ← pyGet props "occlusion_ratio"
      let auuid ← pyGet props "annotation_uuid"
      let elec ← pyGet props "is_electronic"
      let uuid2 ← pyGet props "annotation_uuid"
      let rest2 ← parseTrafficSignLoop get_class_idx from_points rest
      Except.ok (⟨bounding_box, cls, idx, occ, auuid, elec, uuid2⟩ :: rest2)

/-- `parse_traffic_sign_annotation`: read the file and run the filtering
loop over its records. -/
def parse_traffic_sign_annotation {B : Type}
    (get_class_idx : Json → Except PyError Int)
    (from_points : Json → Camera → Except PyError B)
    (annotation_path : FileContent) :
    Except PyError (List ( TrafficSignAnnotation B)) := do
  let ann ← _read_annotation_file annotation_path
  let objs ← pyIter ann
  parseTrafficSignLoop get_class_idx from_points objs

/-- The Python default value of the `classes` argument of
`parse_lane_markings_annotation`. -/
def lane_markings_default_classes : List Json :=
  [Json.str "lm_dashed", Json.str "lm_solid"]

/-- The Python default value of the `classes` argument of
`parse_ego_road_annotation`. -/
def ego_road_default_classes : List Json := [Json.str "EgoRoad_Road"]

/-- The `for annotation in annotations` loop of
`parse_lane_markings_annotation`: records whose `properties` lack a
`"class"` key are skipped, records whose class label is in `classes`
contribute `geometry["coordinates"]` unchanged, all others are skipped. -/
def parseLaneMarkingsLoop (classes : List Json) :
    List Json → Except PyError (List Json)
  | [] => Except.ok []
  | ann :: rest => do
    let props ← pyGet ann "properties"
    let has_class ← pyContainsKey props "class"
    if has_class then
      let annotated_class ← pyGet props "class"
      if pyListIn annotated_class classes then
        let geom ← pyGet ann "geometry"
        let coords ← pyGet geom "coordinates"
        let rest2 ← parseLaneMarkingsLoop classes rest
        Except.ok (coords :: rest2)
      else
        parseLaneMarkingsLoop classes rest
    else
      parseLaneMarkingsLoop classes rest

/-- `parse_lane_markings_annotation`; in the Python source `classes`
defaults to `lane_markings_default_classes` (a shared mutable default —
see the aliasing discussion in the design notes of the spec). -/
def parse_lane_markings_annotation (annotation_path : FileContent)
    (classes : List Json) : Except PyError (List Json) := do
  let anns ← _read_annotation_file annotation_path
  let objs ← pyIter anns
  parseLaneMarkingsLoop classes objs

/-- The `for annotation in annotations` loop of
`parse_ego_road_annotation` — the source duplicates the lane-markings loop
verbatim, and so does the embedding. -/
def parseEgoRoadLoop (classes : List Json) :
    List Json → Except PyError (List Json)
  | [] => Except.ok []
  | ann :: rest => do
    let props ← pyGet ann "properties"
    let has_class ← pyContainsKey props "class"
    if has_class then
      let annotated_class ← pyGet props "class"
      if pyListIn annotated_class classes then
        let geom ← pyGet ann "geometry"
        let coords ← pyGet geom "coordinates"
        let rest2 ← parseEgoRoadLoop classes rest
        Except.ok (coords :: rest2)
      else
        parseEgoRoadLoop classes rest
    else
      parseEgoRoadLoop classes rest

/-- `parse_ego_road_annotation`; in the Python source `classes` defaults to
`ego_road_default_classes`. -/
def parse_ego_road_annotation (annotation_path : FileContent)
    (classes : List Json) : Except PyError (List Json) := do
  let anns ← _read_annotation_file annotation_path
  let objs ← pyIter anns
  parseEgoRoadLoop classes objs

/-- Modelled from the spec: the annotation-project identifiers of
`zod.constants` (not part of the analysed source); §3 of the spec lists
exactly these four kinds. -/
inductive AnnotationProject where
  | LANE_MARKINGS
  | EGO_ROAD
  | OBJECT_DETECTION
  | TRAFFIC_SIGNS
deriving DecidableEq, BEq

/-- A reference to one of the four parser functions — the values stored in
the Python dispatch dictionary are function objects; `ParserFun.call` gives
each reference its semantics. -/
inductive ParserFun where
  | lane_markings
  | ego_road
  | object_detection
  | traffic_signs
deriving DecidableEq

/-- The result of a generic dispatch: each annotation project returns its
own output type. -/
inductive ParseOutput (A B : Type) where
  | objects (xs : List A)
  | signs (xs : List ( TrafficSignAnnotation B))
  | polygons (xs : List Json)

/-- Calling a parser reference on a path, the way a generic dispatch caller
does (one positional argument, so the lane-markings/ego-road default
allow-lists apply). -/
def ParserFun.call (A B : Type) (from_dict : Json → Except PyError A)
    (get_class_idx : Json → Except PyError Int)
    (from_points : Json → Camera → Except PyError B) :
    ParserFun → FileContent → Except PyError ( ParseOutput A B)
  | ParserFun.lane_markings, file =>
    ( parse_lane_markings_annotation file lane_markings_default_classes).map
      ParseOutput.polygons
  | ParserFun.ego_road, file =>
    ( parse_ego_road_annotation file ego_road_default_classes).map
      ParseOutput.polygons
  | ParserFun.object_detection, file =>
    ( parse_object_detection_annotation from_dict file).map
      ParseOutput.objects
  | ParserFun.traffic_signs, file =>
    ( parse_traffic_sign_annotation get_class_idx from_points file).map
      ParseOutput.signs

/-- `ANNOTATION_PARSERS`: the dispatch dictionary literal at the bottom of
`parser.py`, in source order. -/
def ANNOTATION_PARSERS : List (AnnotationProject × ParserFun) :=
  [(AnnotationProject.LANE_MARKINGS, ParserFun.lane_markings),
   (AnnotationProject.EGO_ROAD, ParserFun.ego_road),
   (AnnotationProject.OBJECT_DETECTION, ParserFun.object_detection),
   (AnnotationProject.TRAFFIC_SIGNS, ParserFun.traffic_signs)]

/-- Whether the traffic-sign loop's skip test fires on a record: both
subscripts succeed and the `unclear` value is truthy.  (When a subscript
fails the loop raises instead of skipping.) -/
def unclearTruthy (r : Json) : Bool :=
  match pyGet r "properties" with
  | Except.error _ => false
  | Except.ok props =>
    match pyGet props "unclear" with
    | Except.error _ => false
    | Except.ok v => pyTruthy v

/-- The processing a single non-skipped record undergoes in the body of the
traffic-sign loop: the same subscripts, in the same order, building one
`TrafficSignAnnotation`. -/
def processTrafficSignRecord {B : Type}
    (get_class_idx : Json → Except PyError Int)
    (from_points : Json → Camera → Except PyError B) (annotated_object : Json) :
    Except PyError ( TrafficSignAnnotation B) := do
  let props ← pyGet annotated_object "properties"
  let _unclear ← pyGet props "unclear"
  let geom ← pyGet annotated_object "geometry"
  let coords ← pyGet geom "coordinates"
  let bounding_box ← from_points coords Camera.FRONT
  let cls ← pyGet props "class"
  let idx ← get_class_idx cls
  let occ ← pyGet props "occlusion_ratio"
  let auuid ← pyGet props "annotation_uuid"
  let elec ← pyGet props "is_electronic"
  let uuid2 ← pyGet props "annotation_uuid"
  Except.ok ⟨bounding_box, cls, idx, occ, auuid, elec, uuid2⟩

/-- What one iteration of the lane-markings/ego-road loop does to one
record: an error, no contribution (`none`), or one polygon (`some`). -/
def polygonStep (classes : List Json) (ann : Json) :
    Except PyError (Option Json) := do
  let props ← pyGet ann "properties"
  let has_class ← pyContainsKey props "class"
  if has_class then
    let annotated_class ← pyGet props "class"
    if pyListIn annotated_class classes then
      let geom ← pyGet ann "geometry"
      let coords ← pyGet geom "coordinates"
      Except.ok (some coords)
    else
      Except.ok none
  else
    Except.ok none

/-- Whether a JSON value is an array. -/
def Json.isArr : Json → Bool
  | Json.arr _ => true
  | _ => false

/-- A concrete instantiation of the external class-index lookup, used by
witnesses: every label maps to index 3. -/
def gcW : Json → Except PyError Int := fun _ => Except.ok 3

/-- A concrete instantiation of the external `Box2D.from_points`, used by
witnesses: the box records its inputs. -/
def fpW : Json → Camera → Except PyError (Json × Camera) :=
  fun j c => Except.ok (j, c)

/-- A concrete instantiation of the external `ObjectAnnotation.from_dict`,
used by witnesses: the annotation is the raw record itself. -/
def fdW : Json → Except PyError Json := fun j => Except.ok j

theorem ok_bind {α β : Type} (a : α) (f : α → Except PyError β) :
    (Except.ok a >>= f) = f a := rfl

theorem error_bind {α β : Type} (e : PyError) (f : α → Except PyError β) :
    ((Except.error e : Except PyError α) >>= f) = Except.error e := rfl

theorem bind_ok_iff {α β : Type} (x : Except PyError α)
    (f : α → Except PyError β) (b : β) :
    (x >>= f) = Except.ok b ↔ ∃ a, x = Except.ok a ∧ f a = Except.ok b := by
  cases x <;> simp [ok_bind, error_bind]

theorem exbind_assoc {α β γ : Type} (x : Except PyError α)
    (f : α → Except PyError β) (g : β → Except PyError γ) :
    ((x >>= f) >>= g) = (x >>= fun a => f a >>= g) := by
  cases x <;> rfl

theorem pyEq_str_str (a b : String) :
    pyEq (Json.str a) (Json.str b) = (a == b) := by
  simp [pyEq]

/-- One step of the traffic-sign loop: a record is either skipped (when its
`unclear` property is truthy) or processed in full. -/
theorem tsLoop_cons {B : Type} (gc : Json → Except PyError Int)
    (fp : Json → Camera → Except PyError B) (r : Json) (rest : List Json) :
    parseTrafficSignLoop gc fp (r :: rest) =
      (if unclearTruthy r then parseTrafficSignLoop gc fp rest
       else do
         let a ← processTrafficSignRecord gc fp r
         let rest2 ← parseTrafficSignLoop gc fp rest
         Except.ok (a :: rest2)) := by
  unfold unclearTruthy processTrafficSignRecord
  show (do
    let props ← pyGet r "properties"
    let unclear ← pyGet props "unclear"
    if pyTruthy unclear then
      parseTrafficSignLoop gc fp rest
    else
      let geom ← pyGet r "geometry"
      let coords ← pyGet geom "coordinates"
      let bounding_box ← fp coords Camera.FRONT
      let cls ← pyGet props "class"
      let idx ← gc cls
      let occ ← pyGet props "occlusion_ratio"
      let auuid ← pyGet props "annotation_uuid"
      let elec ← pyGet props "is_electronic"
      let uuid2 ← pyGet props "annotation_uuid"
      let rest2 ← parseTrafficSignLoop gc fp rest
      Except.ok (⟨bounding_box, cls, idx, occ, auuid, elec, uuid2⟩ :: rest2)) = _
  cases hp : pyGet r "properties" with
  | error e => simp [hp, error_bind]
  | ok props =>
    cases hu : pyGet props "unclear" with
    | error e => simp [hp, hu, ok_bind, error_bind]
    | ok v =>
      cases htv : pyTruthy v <;>
        simp [hp, hu, htv, ok_bind, error_bind, exbind_assoc]

/-- The traffic-sign loop is insensitive to records whose `unclear`
property is truthy: dropping them from the input does not change the
result. -/
theorem tsLoop_filter {B : Type} (gc : Json → Except PyError Int)
    (fp : Json → Camera → Except PyError B) (records : List Json) :
    parseTrafficSignLoop gc fp records =
      parseTrafficSignLoop gc fp
        (records.filter (fun r => !unclearTruthy r)) := by
  induction records with
  | nil => rfl
  | cons r rest ih =>
    rw [List.filter_cons]
    cases h : unclearTruthy r with
    | true => rw [tsLoop_cons, if_pos (by simp [h])]; simp [h, ih]
    | false =>
      simp only [h, Bool.not_false, if_pos]
      rw [tsLoop_cons, if_neg (by simp [h]), tsLoop_cons,
        if_neg (by simp [h]), ih]

/-- Any record produced by processing satisfies the class-index and
uuid-duplication invariants, for any behaviour of the external lookup. -/
theorem processRecord_spec {B : Type} (gc : Json → Except PyError Int)
    (fp : Json → Camera → Except PyError B) (r : Json)
    (a : TrafficSignAnnotation B)
    (h : processTrafficSignRecord gc fp r = Except.ok a) :
    gc a.traffic_sign_class = Except.ok a.traffic_sign_idx ∧
      a.uuid = a.annotation_uuid := by
  unfold processTrafficSignRecord at h
  simp only [bind_ok_iff] at h
  obtain ⟨props, hp, v, hu, geom, hg, coords, hc, bb, hbb, cls, hcls, idx,
    hidx, occ, hocc, auuid, hau, elec, hel, uuid2, hau2, hfin⟩ := h
  rw [Except.ok.injEq] at hfin
  subst hfin
  rw [hau] at hau2
  rw [Except.ok.injEq] at hau2
  subst hau2
  exact ⟨hidx, rfl⟩

/-- Every annotation in a successful run of the traffic-sign loop
satisfies the class-index and uuid-duplication invariants. -/
theorem tsLoop_ok_mem {B : Type} (gc : Json → Except PyError Int)
    (fp : Json → Camera → Except PyError B) (records : List Json)
    (out : List ( TrafficSignAnnotation B))
    (h : parseTrafficSignLoop gc fp records = Except.ok out) :
    ∀ a ∈ out, gc a.traffic_sign_class = Except.ok a.traffic_sign_idx ∧
      a.uuid = a.annotation_uuid := by
  induction records generalizing out with
  | nil =>
    rw [show parseTrafficSignLoop gc fp [] = Except.ok [] from rfl,
      Except.ok.injEq] at h
    subst h
    intro a ha
    exact absurd ha (List.not_mem_nil a)
  | cons r rest ih =>
    rw [tsLoop_cons] at h
    by_cases hskip : unclearTruthy r
    · rw [if_pos hskip] at h
      exact ih out h
    · rw [if_neg hskip] at h
      simp only [bind_ok_iff] at h
      obtain ⟨a, hproc, rest2, hrest, hfin⟩ := h
      rw [Except.ok.injEq] at hfin
      subst hfin
      intro b hb
      rcases List.mem_cons.mp hb with hb | hb
      · subst hb
        exact processRecord_spec gc fp r b hproc
      · exact ih rest2 hrest b hb

/-- A successful list comprehension has one output per input, in order. -/
theorem pyListComp_ok {A : Type} (f : Json → Except PyError A)
    (records : List Json) (out : List A)
    (h : pyListComp f records = Except.ok out) :
    out.length = records.length ∧
      ∀ i (hi : i < records.length) (ho : i < out.length),
        f records[i] = Except.ok out[i] := by
  induction records generalizing out with
  | nil =>
    rw [show pyListComp f [] = Except.ok [] from rfl, Except.ok.injEq] at h
    subst h
    exact ⟨rfl, fun i hi => absurd hi (Nat.not_lt_zero i)⟩
  | cons x xs ih =>
    rw [show pyListComp f (x :: xs) = (do
      let y ← f x
      let ys ← pyListComp f xs
      Except.ok (y :: ys)) from rfl] at h
    simp only [bind_ok_iff] at h
    obtain ⟨y, hy, ys, hys, hfin⟩ := h
    rw [Except.ok.injEq] at hfin
    subst hfin
    obtain ⟨hlen, hidx⟩ := ih ys hys
    refine ⟨by simp [hlen], ?_⟩
    intro i hi ho
    cases i with
    | zero => simpa using hy
    | succ n =>
      simp only [List.getElem_cons_succ]
      exact hidx n (Nat.lt_of_succ_lt_succ hi) (Nat.lt_of_succ_lt_succ ho)

/-- One step of the lane-markings loop, phrased through `polygonStep`. -/
theorem laneLoop_cons (classes : List Json) (ann : Json)
    (rest : List Json) :
    parseLaneMarkingsLoop classes (ann :: rest) =
      (match polygonStep classes ann with
       | Except.error e => Except.error e
       | Except.ok none => parseLaneMarkingsLoop classes rest
       | Except.ok (some coords) =>
         (parseLaneMarkingsLoop classes rest).map
           (fun ps => coords :: ps)) := by
  unfold polygonStep
  show (do
    let props ← pyGet ann "properties"
    let has_class ← pyContainsKey props "class"
    if has_class then
      let annotated_class ← pyGet props "class"
      if pyListIn annotated_class classes then
        let geom ← pyGet ann "geometry"
        let coords ← pyGet geom "coordinates"
        let rest2 ← parseLaneMarkingsLoop classes rest
        Except.ok (coords :: rest2)
      else
        parseLaneMarkingsLoop classes rest
    else
      parseLaneMarkingsLoop classes rest) = _
  cases hp : pyGet ann "properties" with
  | error e => simp [hp, error_bind]
  | ok props =>
    cases hk : pyContainsKey props "class" with
    | error e => simp [hp, hk, ok_bind, error_bind]
    | ok has_class =>
      cases has_class with
      | false => simp [hp, hk, ok_bind]
      | true =>
        cases hc : pyGet props "class" with
        | error e => simp [hp, hk, hc, ok_bind, error_bind]
        | ok annotated_class =>
          cases hin : pyListIn annotated_class classes with
          | false => simp [hp, hk, hc, hin, ok_bind]
          | true =>
            cases hg : pyGet ann "geometry" with
            | error e => simp [hp, hk, hc, hin, hg, ok_bind, error_bind]
            | ok geom =>
              cases hco : pyGet geom "coordinates" with
              | error e =>
                simp [hp, hk, hc, hin, hg, hco, ok_bind, error_bind]
              | ok coords =>
                cases hrest : parseLaneMarkingsLoop classes rest <;>
                  simp [hp, hk, hc, hin, hg, hco, hrest, ok_bind,
                    error_bind, Except.map]

/-- One step of the ego-road loop, phrased through `polygonStep`. -/
theorem egoLoop_cons (classes : List Json) (ann : Json)
    (rest : List Json) :
    parseEgoRoadLoop classes (ann :: rest) =
      (match polygonStep classes ann with
       | Except.error e => Except.error e
       | Except.ok none => parseEgoRoadLoop classes rest
       | Except.ok (some coords) =>
         (parseEgoRoadLoop classes rest).map
           (fun ps => coords :: ps)) := by
  unfold polygonStep
  show (do
    let props ← pyGet ann "properties"
    let has_class ← pyContainsKey props "class"
    if has_class then
      let annotated_class ← pyGet props "class"
      if pyListIn annotated_class classes then
        let geom ← pyGet ann "geometry"
        let coords ← pyGet geom "coordinates"
        let rest2 ← parseEgoRoadLoop classes rest
        Except.ok (coords :: rest2)
      else
        parseEgoRoadLoop classes rest
    else
      parseEgoRoadLoop classes rest) = _
  cases hp : pyGet ann "properties" with
  | error e => simp [hp, error_bind]
  | ok props =>
    cases hk : pyContainsKey props "class" with
    | error e => simp [hp, hk, ok_bind, error_bind]
    | ok has_class =>
      cases has_class with
      | false => simp [hp, hk, ok_bind]
      | true =>
        cases hc : pyGet props "class" with
        | error e => simp [hp, hk, hc, ok_bind, error_bind]
        | ok annotated_class =>
          cases hin : pyListIn annotated_class classes with
          | false => simp [hp, hk, hc, hin, ok_bind]
          | true =>
            cases hg : pyGet ann "geometry" with
            | error e => simp [hp, hk, hc, hin, hg, ok_bind, error_bind]
            | ok geom =>
              cases hco : pyGet geom "coordinates" with
              | error e =>
                simp [hp, hk, hc, hin, hg, hco, ok_bind, error_bind]
              | ok coords =>
                cases hrest : parseEgoRoadLoop classes rest <;>
                  simp [hp, hk, hc, hin, hg, hco, hrest, ok_bind,
                    error_bind, Except.map]

/-- The two verbatim-duplicated loops agree on every input. -/
theorem polygonLoops_agree (classes : List Json) (records : List Json) :
    parseLaneMarkingsLoop classes records =
      parseEgoRoadLoop classes records := by
  induction records with
  | nil => rfl
  | cons ann rest ih => rw [laneLoop_cons, egoLoop_cons, ih]

/-- A complete traffic-sign record whose `unclear` value is the number `1`:
truthy in Python, but not the boolean `true`. -/
def tsCoercedRec : Json :=
  Json.obj
    [("properties", Json.obj
        [("unclear", Json.num 1), ("class", Json.str "A"),
         ("occlusion_ratio", Json.num 0),
         ("annotation_uuid", Json.str "u"),
         ("is_electronic", Json.bool false)]),
     ("geometry", Json.obj [("coordinates", Json.arr [])])]

/-- C1, counterexample.  The claim says a record is skipped if and only if
its `properties.unclear` value is the boolean `true`, with no coercion of
truthy alternate encodings.  But the source tests `if props["unclear"]:`,
which is a Python truthiness test: this complete record carries
`unclear = 1` — a value different from the boolean `true` — and is
nevertheless skipped, so the parse of a one-record file returns the empty
list. -/
theorem unclear_boolean_check_cex :
    parse_traffic_sign_annotation gcW fpW
        (FileContent.valid (Json.arr [tsCoercedRec])) = Except.ok [] ∧
      (do
        let props ← pyGet tsCoercedRec "properties"
        pyGet props "unclear") = Except.ok (Json.num 1) ∧
      Json.num 1 ≠ Json.bool true :=
  ⟨rfl, rfl, fun h => Json.noConfusion h⟩

/-- C1, amended.  In `parse_traffic_sign_annotation` a record is skipped if
and only if its `properties.unclear` value is truthy under Python
truthiness (not only for the boolean `true`): the loop's result is
unchanged when all records whose `unclear` is truthy are dropped from the
input (so no such record contributes to the output), and each step either
skips a truthy-`unclear` record or processes the record in full; running
the parser on a file whose top level is an array is exactly this loop. -/
theorem traffic_sign_skip_iff_truthy {B : Type}
    (gc : Json → Except PyError Int)
    (fp : Json → Camera → Except PyError B) :
    (∀ records : List Json,
        parseTrafficSignLoop gc fp records =
          parseTrafficSignLoop gc fp
            (records.filter (fun r => !unclearTruthy r))) ∧
      (∀ (r : Json) (rest : List Json),
          parseTrafficSignLoop gc fp (r :: rest) =
            (if unclearTruthy r then parseTrafficSignLoop gc fp rest
             else do
               let a ← processTrafficSignRecord gc fp r
               let rest2 ← parseTrafficSignLoop gc fp rest
               Except.ok (a :: rest2))) ∧
      (∀ records : List Json,
          parse_traffic_sign_annotation gc fp
              (FileContent.valid (Json.arr records)) =
            parseTrafficSignLoop gc fp records) :=
  ⟨tsLoop_filter gc fp, tsLoop_cons gc fp, fun _ => rfl⟩

/-- C2.  On a file whose top level is an array, a successful
`parse_object_detection_annotation` returns exactly one output per
top-level record — the external constructor applied to that record — in
input order, with no filtering. -/
theorem object_detection_all_records {A : Type}
    (from_dict : Json → Except PyError A) (records : List Json)
    (out : List A)
    (h : parse_object_detection_annotation from_dict
        (FileContent.valid (Json.arr records)) = Except.ok out) :
    out.length = records.length ∧
      ∀ i (hi : i < records.length) (ho : i < out.length),
        from_dict records[i] = Except.ok out[i] :=
  pyListComp_ok from_dict records out h

/-- C2, witness: a one-record file parsed with the identity constructor. -/
theorem object_detection_all_records_witness :
    ([Json.null] : List Json).length = 1 ∧
      fdW Json.null = Except.ok Json.null :=
  ⟨(object_detection_all_records fdW [Json.null] [Json.null] rfl).1,
   (object_detection_all_records fdW [Json.null] [Json.null] rfl).2 0
     (by decide) (by decide)⟩

/-- A record whose `properties` dictionary holds nothing but `unclear`:
no `geometry`, no `class`, no `occlusion_ratio`, no `annotation_uuid`, no
`is_electronic`. -/
def unclearOnlyRec (v : Json) : Json :=
  Json.obj [("properties", Json.obj [("unclear", v)])]

/-- C10.  A record whose `properties.unclear` value is truthy is skipped
before any other field is accessed: prepending a record that carries
nothing but a truthy `unclear` — it lacks `geometry` and every other
`properties` field — leaves the parse of any file unchanged and raises no
error. -/
theorem unclear_skipped_before_field_access {B : Type}
    (gc : Json → Except PyError Int)
    (fp : Json → Camera → Except PyError B) (v : Json)
    (records : List Json) (h : pyTruthy v = true) :
    parse_traffic_sign_annotation gc fp
        (FileContent.valid (Json.arr (unclearOnlyRec v :: records))) =
      parse_traffic_sign_annotation gc fp
        (FileContent.valid (Json.arr records)) := by
  show parseTrafficSignLoop gc fp (unclearOnlyRec v :: records) =
    parseTrafficSignLoop gc fp records
  rw [tsLoop_cons,
    if_pos (show unclearTruthy (unclearOnlyRec v) = true by
      simp [unclearTruthy, unclearOnlyRec, pyGet, pyLookup, h])]

/-- C10, witness: a truthy-`unclear`-only record in front of the empty
file. -/
theorem unclear_skipped_before_field_access_witness :
    parse_traffic_sign_annotation gcW fpW
        (FileContent.valid (Json.arr [unclearOnlyRec (Json.bool true)])) =
      parse_traffic_sign_annotation gcW fpW
        (FileContent.valid (Json.arr [])) :=
  unclear_skipped_before_field_access gcW fpW (Json.bool true) [] rfl

/-- A lane-marking record of class `lm_dashed` with one polygon. -/
def lmDashRec : Json :=
  Json.obj
    [("properties", Json.obj [("class", Json.str "lm_dashed")]),
     ("geometry", Json.obj [("coordinates", Json.arr [Json.num 1])])]

/-- A record whose `properties` dictionary has no `class` key. -/
def lmNoClassRec : Json :=
  Json.obj [("properties", Json.obj [("foo", Json.null)])]

/-- C3.  In the lane-markings and ego-road parsers each record contributes
according to `polygonStep`, preserving input order; a record whose
`properties` dictionary has no `class` key is silently skipped (no output,
no error); a record whose class label is a member of `classes` contributes
its `geometry.coordinates` unchanged; a record whose class label is not a
member is skipped; and a file whose top level is an array is parsed by
exactly this loop. -/
theorem polygon_filter_semantics :
    (∀ (classes : List Json) (ann : Json) (rest : List Json),
        parseLaneMarkingsLoop classes (ann :: rest) =
          (match polygonStep classes ann with
           | Except.error e => Except.error e
           | Except.ok none => parseLaneMarkingsLoop classes rest
           | Except.ok (some coords) =>
             (parseLaneMarkingsLoop classes rest).map
               (fun ps => coords :: ps))) ∧
      (∀ (classes : List Json) (ann : Json) (rest : List Json),
          parseEgoRoadLoop classes (ann :: rest) =
            (match polygonStep classes ann with
             | Except.error e => Except.error e
             | Except.ok none => parseEgoRoadLoop classes rest
             | Except.ok (some coords) =>
               (parseEgoRoadLoop classes rest).map
                 (fun ps => coords :: ps))) ∧
      (∀ (classes : List Json) (ann : Json) (fields : List (String × Json)),
          pyGet ann "properties" = Except.ok (Json.obj fields) →
          (∀ kv ∈ fields, kv.1 ≠ "class") →
          polygonStep classes ann = Except.ok none) ∧
      (∀ (classes : List Json) (ann props cls geom coords : Json),
          pyGet ann "properties" = Except.ok props →
          pyContainsKey props "class" = Except.ok true →
          pyGet props "class" = Except.ok cls →
          pyListIn cls classes = true →
          pyGet ann "geometry" = Except.ok geom →
          pyGet geom "coordinates" = Except.ok coords →
          polygonStep classes ann = Except.ok (some coords)) ∧
      (∀ (classes : List Json) (ann props cls : Json),
          pyGet ann "properties" = Except.ok props →
          pyContainsKey props "class" = Except.ok true →
          pyGet props "class" = Except.ok cls →
          pyListIn cls classes = false →
          polygonStep classes ann = Except.ok none) ∧
      (∀ (classes : List Json) (records : List Json),
          parse_lane_markings_annotation
              (FileContent.valid (Json.arr records)) classes =
            parseLaneMarkingsLoop classes records) ∧
      (∀ (classes : List Json) (records : List Json),
          parse_ego_road_annotation
              (FileContent.valid (Json.arr records)) classes =
            parseEgoRoadLoop classes records) := by
  refine ⟨laneLoop_cons, egoLoop_cons, ?_, ?_, ?_, fun _ _ => rfl,
    fun _ _ => rfl⟩
  · intro classes ann fields hp hnone
    have hany : fields.any (fun f => f.1 == "class") = false := by
      rw [List.any_eq_false]
      intro kv hkv
      simpa using hnone kv hkv
    unfold polygonStep
    rw [hp, ok_bind]
    simp only [pyContainsKey, hany, ok_bind]
    simp
  · intro classes ann props cls geom coords hp hk hc hin hg hco
    unfold polygonStep
    rw [hp, ok_bind, hk, ok_bind, if_pos rfl, hc, ok_bind, hin,
      if_pos rfl, hg, ok_bind, hco, ok_bind]
  · intro classes ann props cls hp hk hc hin
    unfold polygonStep
    rw [hp, ok_bind, hk, ok_bind, if_pos rfl, hc, ok_bind, hin,
      if_neg Bool.false_ne_true]

/-- C3, witness: with the default lane-markings allow-list, a `lm_dashed`
record contributes its coordinates and a record without a `class` key is
silently skipped. -/
theorem polygon_filter_semantics_witness :
    polygonStep lane_markings_default_classes lmDashRec =
        Except.ok (some (Json.arr [Json.num 1])) ∧
      polygonStep lane_markings_default_classes lmNoClassRec =
        Except.ok none :=
  ⟨polygon_filter_semantics.2.2.2.1 lane_markings_default_classes lmDashRec
     (Json.obj [("class", Json.str "lm_dashed")]) (Json.str "lm_dashed")
     (Json.obj [("coordinates", Json.arr [Json.num 1])])
     (Json.arr [Json.num 1]) rfl rfl rfl
     (by simp [pyListIn, lane_markings_default_classes, pyEq_str_str]) rfl
     rfl,
   polygon_filter_semantics.2.2.1 lane_markings_default_classes lmNoClassRec
     [("foo", Json.null)] rfl (by simp)⟩

/-- C4, counterexample.  The claim says the loader fails with a
`MalformedInput`-kind error when the top-level JSON value is not an array,
but the source returns whatever `json.load` produced without checking: on
a file holding the (non-array) JSON object `{}` the loader succeeds and
returns that object. -/
theorem read_file_no_array_check_cex :
    _read_annotation_file (FileContent.valid (Json.obj [])) =
        Except.ok (Json.obj []) ∧
      Json.isArr (Json.obj []) = false :=
  ⟨rfl, rfl⟩

/-- C4, amended.  `_read_annotation_file` fails with `FileNotFound` when
the path does not resolve and with `MalformedInput` when the content is
not valid JSON; on valid JSON it returns the top-level value unchanged —
even when that value is not an array, since the source performs no
top-level type check.  No partial results on failure. -/
theorem read_file_error_kinds :
    _read_annotation_file FileContent.missing =
        Except.error PyError.fileNotFound ∧
      _read_annotation_file FileContent.invalid =
        Except.error PyError.malformedInput ∧
      ∀ j : Json,
        _read_annotation_file (FileContent.valid j) = Except.ok j :=
  ⟨rfl, rfl, fun _ => rfl⟩

/-- C5.  Every annotation in a successful traffic-sign parse carries a
`traffic_sign_idx` that is exactly the external lookup's answer for its
`traffic_sign_class` label, and its `annotation_uuid` is duplicated into
the `uuid` field — for every behaviour of the external collaborators. -/
theorem traffic_sign_idx_and_uuid {B : Type}
    (gc : Json → Except PyError Int)
    (fp : Json → Camera → Except PyError B) (file : FileContent)
    (out : List ( TrafficSignAnnotation B))
    (h : parse_traffic_sign_annotation gc fp file = Except.ok out) :
    ∀ a ∈ out,
      gc a.traffic_sign_class = Except.ok a.traffic_sign_idx ∧
        a.uuid = a.annotation_uuid := by
  unfold parse_traffic_sign_annotation at h
  simp only [bind_ok_iff] at h
  obtain ⟨ann, _, objs, _, hloop⟩ := h
  exact tsLoop_ok_mem gc fp objs out hloop

/-- A complete traffic-sign record with `unclear = false`. -/
def tsGoodRec : Json :=
  Json.obj
    [("properties", Json.obj
        [("unclear", Json.bool false), ("class", Json.str "stop"),
         ("occlusion_ratio", Json.num 0),
         ("annotation_uuid", Json.str "a1"),
         ("is_electronic", Json.bool false)]),
     ("geometry", Json.obj [("coordinates", Json.arr [])])]

/-- The annotation `tsGoodRec` parses to, with the witness collaborators
`gcW` and `fpW`. -/
def tsGoodAnn : TrafficSignAnnotation (Json × Camera) :=
  ⟨(Json.arr [], Camera.FRONT), Json.str "stop", 3, Json.num 0,
   Json.str "a1", Json.bool false, Json.str "a1"⟩

/-- C5, witness: the one-record file `[tsGoodRec]` with the witness
collaborators. -/
theorem traffic_sign_idx_and_uuid_witness :
    gcW (Json.str "stop") = Except.ok 3 ∧
      Json.str "a1" = Json.str "a1" :=
  traffic_sign_idx_and_uuid gcW fpW
    (FileContent.valid (Json.arr [tsGoodRec])) [tsGoodAnn] rfl tsGoodAnn
    (List.mem_singleton.mpr rfl)

/-- C6.  With the allow-list supplied explicitly, the lane-markings and
ego-road parsers are the same function: the source duplicates one
algorithm and the two differ only in their default allow-list. -/
theorem lane_ego_same_algorithm (file : FileContent)
    (classes : List Json) :
    parse_lane_markings_annotation file classes =
      parse_ego_road_annotation file classes := by
  unfold parse_lane_markings_annotation parse_ego_road_annotation
  cases _read_annotation_file file with
  | error e => rw [error_bind, error_bind]
  | ok ann =>
    rw [ok_bind, ok_bind]
    cases pyIter ann with
    | error e => rw [error_bind, error_bind]
    | ok objs => rw [ok_bind, ok_bind, polygonLoops_agree]

/-- C7.  All four parsers are pure functions of the file content and the
external collaborators — the source keeps no state between invocations —
so parsing the same unchanged file twice yields identical output. -/
theorem parsers_stateless_idempotent (A B : Type)
    (from_dict : Json → Except PyError A)
    (gc : Json → Except PyError Int)
    (fp : Json → Camera → Except PyError B)
    (file : FileContent) (classes : List Json) :
    parse_object_detection_annotation from_dict file =
        parse_object_detection_annotation from_dict file ∧
      parse_traffic_sign_annotation gc fp file =
        parse_traffic_sign_annotation gc fp file ∧
      parse_lane_markings_annotation file classes =
        parse_lane_markings_annotation file classes ∧
      parse_ego_road_annotation file classes =
        parse_ego_road_annotation file classes :=
  ⟨rfl, rfl, rfl, rfl⟩

/-- C8.  The dispatch registry `ANNOTATION_PARSERS` holds exactly one
entry per annotation-project kind, each kind mapping to the reference to
its corresponding parser; calling a reference (as a generic dispatch
caller does, with one positional argument) runs the corresponding parser,
with the default allow-lists for lane markings and ego road. -/
theorem registry_complete_and_correct :
    ANNOTATION_PARSERS.map Prod.fst =
        [AnnotationProject.LANE_MARKINGS, AnnotationProject.EGO_ROAD,
         AnnotationProject.OBJECT_DETECTION,
         AnnotationProject.TRAFFIC_SIGNS] ∧
      (ANNOTATION_PARSERS.filter
          (fun e => e.1 == AnnotationProject.LANE_MARKINGS)).length = 1 ∧
      (ANNOTATION_PARSERS.filter
          (fun e => e.1 == AnnotationProject.EGO_ROAD)).length = 1 ∧
      (ANNOTATION_PARSERS.filter
          (fun e => e.1 == AnnotationProject.OBJECT_DETECTION)).length
          = 1 ∧
      (ANNOTATION_PARSERS.filter
          (fun e => e.1 == AnnotationProject.TRAFFIC_SIGNS)).length = 1 ∧
      ANNOTATION_PARSERS.lookup AnnotationProject.LANE_MARKINGS =
        some ParserFun.lane_markings ∧
      ANNOTATION_PARSERS.lookup AnnotationProject.EGO_ROAD =
        some ParserFun.ego_road ∧
      ANNOTATION_PARSERS.lookup AnnotationProject.OBJECT_DETECTION =
        some ParserFun.object_detection ∧
      ANNOTATION_PARSERS.lookup AnnotationProject.TRAFFIC_SIGNS =
        some ParserFun.traffic_signs ∧
      (∀ file, ParserFun.call Json (Json × Camera) fdW gcW fpW
            ParserFun.lane_markings file =
          ( parse_lane_markings_annotation file
              lane_markings_default_classes).map ParseOutput.polygons) ∧
      (∀ file, ParserFun.call Json (Json × Camera) fdW gcW fpW
            ParserFun.ego_road file =
          ( parse_ego_road_annotation file
              ego_road_default_classes).map ParseOutput.polygons) ∧
      (∀ file, ParserFun.call Json (Json × Camera) fdW gcW fpW
            ParserFun.object_detection file =
          ( parse_object_detection_annotation fdW file).map
            ParseOutput.objects) ∧
      (∀ file, ParserFun.call Json (Json × Camera) fdW gcW fpW
            ParserFun.traffic_signs file =
          ( parse_traffic_sign_annotation gcW fpW file).map
            ParseOutput.signs) :=
  ⟨rfl, rfl, rfl, rfl, rfl, rfl, rfl, rfl, rfl, fun _ => rfl,
   fun _ => rfl, fun _ => rfl, fun _ => rfl⟩

end Zod
